import Mathlib

/-!
# Verification of `autosuggest.py` (google-autocomplete-scraper)

A shallow embedding in Lean 4 of the interactive Google-autocomplete CLI
tool in `src/autosuggest.py`, together with theorems settling the
specification claims about it.

Modelling conventions:
* JSON values (the results of Python's `json.loads`) are the inductive
  `JsonVal`; a response body that fails to parse is modelled as the absence
  of a `JsonVal` (Python raises `json.JSONDecodeError` there).
* Python exceptions are the inductive `PyExc`; a function that may raise
  returns a result constructor carrying either the value or the exception.
* Console output is modelled as the list of printed lines, in order.
* Interactive input is modelled as a list of events: each `input()` call
  consumes one event, which is either a typed line or a delivered
  interrupt signal (`KeyboardInterrupt` is raised at the blocking call).
* The external bidi libraries (`arabic_reshaper.reshape`,
  `bidi.algorithm.get_display`) are opaque string transforms, passed as
  parameters `reshape` and `getDisplay`.
-/

set_option autoImplicit false

namespace Autosuggest

/-- A parsed JSON value, as produced by Python's `json.loads`. -/
inductive JsonVal where
  | null
  | bool (b : Bool)
  | num (n : Int)
  | str (s : String)
  | arr (xs : List JsonVal)
  | obj (kvs : List (String × JsonVal))

/-- The Python exceptions that can arise in the embedded fragment. -/
inductive PyExc where
  | indexError
  | keyError
  | typeError
  | jsonDecodeError
  | keyboardInterrupt
  deriving DecidableEq, Repr

/-- Python subscripting `v[1]`, as applied in
`json.loads(response.text)[1]` (autosuggest.py line 57):
* a list yields its element at index 1, or raises `IndexError`;
* a string yields the one-character string at index 1, or raises
  `IndexError`;
* a dict raises `KeyError` (JSON object keys are strings, so the integer
  key `1` is never present);
* `None`, booleans and numbers raise `TypeError` (not subscriptable). -/
def subscript1 : JsonVal → Except PyExc JsonVal
  | .arr xs =>
      match xs with
      | _ :: y :: _ => .ok y
      | _ => .error .indexError
  | .str s =>
      match s.toList with
      | _ :: c :: _ => .ok (.str (String.mk [c]))
      | _ => .error .indexError
  | .obj _ => .error .keyError
  | _ => .error .typeError

/-- The outcome of `requests.get(url, timeout=10)` followed by
`response.raise_for_status()`, as seen by the fetcher:
* `timeout`: `requests.exceptions.Timeout` was raised;
* `requestError m`: another `requests.exceptions.RequestException`
  (DNS failure, connection refused, non-2xx status, ...) with message `m`;
* `response p`: a successful response whose body parses to `p`
  (`p = none` models a body `json.loads` rejects with `JSONDecodeError`). -/
inductive NetOutcome where
  | timeout
  | requestError (m : String)
  | response (parsed : Option JsonVal)

/-- The observable result of `get_google_autocomplete`: either a returned
value together with the error lines it printed, or an exception that
propagates out of the function. -/
inductive FetchOut where
  | ret (v : JsonVal) (msgs : List String)
  | raise (e : PyExc)

/-- `true` iff the fetcher returned (rather than let an exception
propagate). -/
def FetchOut.isRet : FetchOut → Bool
  | .ret _ _ => true
  | .raise _ => false

def timeoutMsg : String := "❌ Request timed out. Please check your internet connection."

def formatMsg : String := "❌ Unexpected response format from Google."

/-- `get_google_autocomplete` (autosuggest.py lines 37-68), as a function
of the network outcome for its request.  The `try` block parses the body
and returns element 1; `except requests.exceptions.Timeout` and
`except requests.exceptions.RequestException` print a message and return
`[]`; `except (IndexError, json.JSONDecodeError)` prints the
format message and returns `[]`.  Any other exception raised by the
subscript (`KeyError`, `TypeError`) is not caught and propagates. -/
def get_google_autocomplete (net : NetOutcome) : FetchOut :=
  match net with
  | .timeout => .ret (.arr []) [timeoutMsg]
  | .requestError m => .ret (.arr []) ["❌ Error fetching suggestions: " ++ m]
  | .response none => .ret (.arr []) [formatMsg]
  | .response (some j) =>
      match subscript1 j with
      | .ok v => .ret v []
      | .error .indexError => .ret (.arr []) [formatMsg]
      | .error e => .raise e

/-- Python's `str.strip()` with no argument: remove leading and trailing
whitespace.  (Defined over the character list so that it evaluates by
kernel reduction.) -/
def pyStrip (s : String) : String :=
  String.mk (((s.toList.dropWhile Char.isWhitespace).reverse.dropWhile
    Char.isWhitespace).reverse)

/-- Python's `str.lower()` on the ASCII fragment this program compares
against.  (Defined over the character list so that it evaluates by
kernel reduction.) -/
def pyLower (s : String) : String :=
  String.mk (s.toList.map Char.toLower)

/-- `process_rtl_text` (autosuggest.py lines 70-84).  The external
library functions `arabic_reshaper.reshape` and `bidi.algorithm.get_display`
are opaque string transforms passed as parameters. -/
def process_rtl_text (reshape getDisplay : String → String)
    (text : String) (is_rtl : Bool) : String :=
  if is_rtl then getDisplay (reshape text) else text

/-- `c` repeated `n` times, Python's `c * n` for a one-character string. -/
def repChar (c : Char) (n : Nat) : String :=
  String.mk (List.replicate n c)

/-- Python's format spec `{i:2d}`: decimal, right-aligned, minimum width 2. -/
def pad2d (i : Nat) : String :=
  repChar ' ' (2 - (toString i).length) ++ toString i

/-- Python's format spec `{key:2s}`: string, left-aligned, minimum width 2. -/
def pad2s (s : String) : String :=
  s ++ repChar ' ' (2 - s.length)

/-- The `for i, suggestion in enumerate(suggestions, 1)` loop of
`display_suggestions` (autosuggest.py lines 103-105): one printed line
per suggestion, numbered from `i` upward. -/
def enumSuggestionLines (reshape getDisplay : String → String) (is_rtl : Bool) :
    Nat → List String → List String
  | _, [] => []
  | i, s :: rest =>
      (pad2d i ++ ". " ++ process_rtl_text reshape getDisplay s is_rtl)
        :: enumSuggestionLines reshape getDisplay is_rtl (i + 1) rest

/-- `display_suggestions` (autosuggest.py lines 86-107), as the list of
lines it prints. -/
def display_suggestions (reshape getDisplay : String → String)
    (keyword : String) (suggestions : List String) (is_rtl : Bool) : List String :=
  let processed_keyword := process_rtl_text reshape getDisplay keyword is_rtl
  let header : List String :=
    ["\n🔍 Autocomplete suggestions for '" ++ processed_keyword ++ "':",
     repChar '=' (processed_keyword.length + 35)]
  if suggestions = [] then
    header ++ ["No suggestions found."]
  else
    header ++ enumSuggestionLines reshape getDisplay is_rtl 1 suggestions
      ++ ["\nFound " ++ toString suggestions.length ++ " suggestion(s)"]

/-! ## Configuration loader -/

/-- The state of the file at `language_config.json` when
`load_language_config` runs: absent, or present with a body that parses
to the given JSON value (`none` = not valid JSON). -/
inductive FsState where
  | absent
  | present (parsed : Option JsonVal)

/-- The observable result of `load_language_config`: the returned
configuration together with what was written to the file (if anything),
or an exception that propagates to the caller. -/
inductive LoadOut where
  | ret (cfg : JsonVal) (written : Option JsonVal)
  | raise (e : PyExc)

/-- The `default_config` dictionary of autosuggest.py lines 22-27. -/
def default_config : JsonVal :=
  .obj [("languages", .obj
    [("1", .obj [("code", .str "en"), ("name", .str "English"), ("rtl", .bool false)]),
     ("2", .obj [("code", .str "he"), ("name", .str "Hebrew"), ("rtl", .bool true)])])]

/-- `load_language_config` (autosuggest.py lines 16-35): if the file is
absent, write the default configuration and return it; otherwise return
`json.load` of the file, whose `JSONDecodeError` on an unparseable body
is not caught and propagates. -/
def load_language_config : FsState → LoadOut
  | .absent => .ret default_config (some default_config)
  | .present (some j) => .ret j none
  | .present none => .raise .jsonDecodeError

/-- Python dict lookup `d[k]` on a JSON object, as `Option`. -/
def JsonVal.look : JsonVal → String → Option JsonVal
  | .obj kvs, k => (kvs.find? (fun kv => kv.1 == k)).map (fun kv => kv.2)
  | _, _ => none

/-! ## Language selection -/

/-- A well-formed entry of the `languages` table: the fields
`get_language_choice` reads (`name`, `code`, `rtl`). -/
structure LangEntry where
  code : String
  name : String
  rtl : Bool
  deriving DecidableEq, Repr

/-- A `LangEntry` as its JSON object. -/
def LangEntry.toJson (e : LangEntry) : JsonVal :=
  .obj [("code", .str e.code), ("name", .str e.name), ("rtl", .bool e.rtl)]

/-- The two entries of `default_config`, structured. -/
def defaultLangs : List (String × LangEntry) :=
  [("1", ⟨"en", "English", false⟩), ("2", ⟨"he", "Hebrew", true⟩)]

/-- One event consumed by a blocking `input()` call: a typed line, or an
interrupt signal delivered while waiting (Python raises
`KeyboardInterrupt` at that call). -/
inductive InEvent where
  | line (s : String)
  | interrupt

/-- The menu printed at the top of `get_language_choice`
(autosuggest.py lines 119-121). -/
def menuLines (langs : List (String × LangEntry)) : List String :=
  "\n🌐 Select language:"
    :: langs.map (fun kv => pad2s kv.1 ++ ". " ++ kv.2.name ++ " (" ++ kv.2.code ++ ")")

def invalidChoiceMsg : String := "❌ Invalid choice. Please enter a number between 1-2."

/-- The outcome of `get_language_choice` run against an input stream:
the chosen `(code, rtl)` with the remaining stream and the printed error
lines, or an interrupt (`KeyboardInterrupt` propagates), or an exhausted
stream (model artifact for a session that ends mid-prompt). -/
inductive SelResult where
  | ok (code : String) (rtl : Bool) (rest : List InEvent) (out : List String)
  | interrupted (out : List String)
  | starved (out : List String)

/-- Prepend printed lines to a selection outcome's output. -/
def SelResult.addOut (pre : List String) : SelResult → SelResult
  | .ok c r rest out => .ok c r rest (pre ++ out)
  | .interrupted out => .interrupted (pre ++ out)
  | .starved out => .starved (pre ++ out)

/-- Prepend one printed line to a selection outcome's output. -/
def SelResult.addMsg (m : String) : SelResult → SelResult
  | .ok c r rest out => .ok c r rest (m :: out)
  | .interrupted out => .interrupted (m :: out)
  | .starved out => .starved (m :: out)

/-- The `while True` prompt loop of `get_language_choice`
(autosuggest.py lines 123-133): blank input defaults to English, a key
of the table returns that entry's code and flag, anything else prints
the invalid-choice message and re-prompts. -/
def sel_loop (langs : List (String × LangEntry)) : List InEvent → SelResult
  | [] => .starved []
  | .interrupt :: _ => .interrupted []
  | .line s :: rest =>
      let choice := pyStrip s
      if choice = "" then .ok "en" false rest []
      else
        match List.lookup choice langs with
        | some e => .ok e.code e.rtl rest []
        | none => (sel_loop langs rest).addMsg invalidChoiceMsg

/-- `get_language_choice` (autosuggest.py lines 109-133) against an input
stream: prints the menu, then runs the prompt loop.  The table `langs` is
the (well-formed) `languages` table the configuration loader returned. -/
def get_language_choice (langs : List (String × LangEntry))
    (ins : List InEvent) : SelResult :=
  (sel_loop langs ins).addOut (menuLines langs)

/-! ## Main interactive loop

`main` (autosuggest.py lines 135-185) is embedded as a function of
* the well-formed `languages` table `langs`,
* a network oracle `net : keyword → lang → NetOutcome` giving the outcome
  of the HTTP request for each query,
* the opaque bidi transforms `reshape` and `getDisplay`,
* the stream of input events.
Its observable behaviour is the list of printed lines plus how the
process ends.  Only full `print(...)` calls are recorded; the partial-line
prompt strings passed to `input(...)` are not. -/

/-- How the process ends:
* `finished`: `main` returns normally after `break` (exit status 0);
* `exitZero`: the `except KeyboardInterrupt` handler ran `sys.exit(0)`;
* `uncaught e`: exception `e` escapes `main` (traceback, nonzero status);
* `starved`: the input stream was exhausted mid-prompt (model artifact). -/
inductive MainResult where
  | finished
  | exitZero
  | uncaught (e : PyExc)
  | starved
  deriving DecidableEq, Repr

/-- The outcome of the `Search another keyword? (y/n)` prompt
(autosuggest.py lines 178-181): `"n"`/`"no"` (case-insensitive, after
strip) breaks out of the loop with the thank-you line; anything else goes
around again.  An interrupt at this `input()` raises `KeyboardInterrupt`. -/
inductive ContResult where
  | stop (out : List String)
  | again (rest : List InEvent)
  | interrupted
  | starved

def thanksMsg : String := "\n👋 Thanks for using Google Autocomplete Tool!"

/-- The continue prompt after a query (autosuggest.py lines 178-181). -/
def after_query : List InEvent → ContResult
  | [] => .starved
  | .interrupt :: _ => .interrupted
  | .line c :: rest =>
      let continue_choice := pyLower (pyStrip c)
      if continue_choice = "n" ∨ continue_choice = "no" then .stop [thanksMsg]
      else .again rest

/-- Conversion of a fetched value to the suggestion list the presentation
layer iterates over.  The endpoint's documented shape — and every error
path of the fetcher — yields a list of strings (`some`); any other shape
is modelled as an uncaught `TypeError` in the display loop, and no
theorem below depends on such a shape. -/
def jsonStrList : JsonVal → Option (List String)
  | .arr xs => xs.mapM (fun x => match x with | .str s => some s | _ => none)
  | _ => none

/-- `display_suggestions` applied to the raw value `get_google_autocomplete`
returned (autosuggest.py line 175). -/
def display_of_value (reshape getDisplay : String → String)
    (keyword : String) (v : JsonVal) (is_rtl : Bool) : Except PyExc (List String) :=
  match jsonStrList v with
  | some l => .ok (display_suggestions reshape getDisplay keyword l is_rtl)
  | none => .error .typeError

/-- The result of one pass through the `while True` body of `main`
(autosuggest.py lines 152-181): continue with a possibly updated language
binding and the rest of the stream, break out of the loop, be interrupted
(to be caught by the handler around the loop), run out of input, or let
an exception escape.  `fetched` records the `(keyword, lang)` the fetcher
was invoked with, `none` when no fetch was performed. -/
inductive IterResult where
  | next (lang : String) (is_rtl : Bool) (rest : List InEvent)
      (out : List String) (fetched : Option (String × String))
  | terminate (out : List String) (fetched : Option (String × String))
  | interrupted (out : List String) (fetched : Option (String × String))
  | starved (out : List String) (fetched : Option (String × String))
  | uncaught (e : PyExc) (out : List String) (fetched : Option (String × String))

/-- The `(keyword, lang)` the fetcher was invoked with during a loop
pass, `none` when no fetch was performed. -/
def IterResult.fetchedOf : IterResult → Option (String × String)
  | .next _ _ _ _ f => f
  | .terminate _ f => f
  | .interrupted _ f => f
  | .starved _ f => f
  | .uncaught _ _ f => f

/-- The separator printed at the top of each loop pass (line 153). -/
def sepLine : String := "\n" ++ repChar '-' 40

def goodbyeMsg : String := "\n👋 Goodbye!"

def invalidKeywordMsg : String := "❌ Please enter a valid keyword."

/-- One pass through the `while True` body of `main`
(autosuggest.py lines 152-181). -/
def main_iter (langs : List (String × LangEntry)) (net : String → String → NetOutcome)
    (reshape getDisplay : String → String) (lang : String) (is_rtl : Bool) :
    List InEvent → IterResult
  | [] => .starved [sepLine] none
  | .interrupt :: _ => .interrupted [sepLine] none
  | .line raw :: rest =>
      let keyword := pyStrip raw
      if pyLower keyword = "quit" ∨ pyLower keyword = "exit" ∨ pyLower keyword = "q" then
        .terminate [sepLine, goodbyeMsg] none
      else if pyLower keyword = "lang" then
        match get_language_choice langs rest with
        | .ok code rtl rest2 out =>
            .next code rtl rest2 ([sepLine] ++ out ++ ["✅ Language changed to: " ++ code]) none
        | .interrupted out => .interrupted ([sepLine] ++ out) none
        | .starved out => .starved ([sepLine] ++ out) none
      else if keyword = "" then
        .next lang is_rtl rest [sepLine, invalidKeywordMsg] none
      else
        let fetchingLine := "\n⏳ Fetching suggestions for '"
          ++ process_rtl_text reshape getDisplay keyword is_rtl ++ "'..."
        match get_google_autocomplete (net keyword lang) with
        | .raise e => .uncaught e [sepLine, fetchingLine] (some (keyword, lang))
        | .ret v msgs =>
            match display_of_value reshape getDisplay keyword v is_rtl with
            | .error e => .uncaught e ([sepLine, fetchingLine] ++ msgs) (some (keyword, lang))
            | .ok dl =>
                match after_query rest with
                | .stop out2 =>
                    .terminate ([sepLine, fetchingLine] ++ msgs ++ dl ++ out2)
                      (some (keyword, lang))
                | .again rest2 =>
                    .next lang is_rtl rest2 ([sepLine, fetchingLine] ++ msgs ++ dl)
                      (some (keyword, lang))
                | .interrupted =>
                    .interrupted ([sepLine, fetchingLine] ++ msgs ++ dl) (some (keyword, lang))
                | .starved =>
                    .starved ([sepLine, fetchingLine] ++ msgs ++ dl) (some (keyword, lang))

def interruptMsg : String := "\n\n👋 Exiting... Goodbye!"

/-- The `try: while True: ... except KeyboardInterrupt:` of `main`
(autosuggest.py lines 151-185), iterated with explicit fuel (each pass
consumes at least one input event, so `fuel = ins.length` is always
enough).  An interrupted pass is caught by the handler, which prints the
goodbye line and calls `sys.exit(0)`; an uncaught exception propagates. -/
def loop_run (langs : List (String × LangEntry)) (net : String → String → NetOutcome)
    (reshape getDisplay : String → String) :
    Nat → String → Bool → List InEvent → List String × MainResult
  | 0, _, _, _ => ([], .starved)
  | fuel + 1, lang, is_rtl, ins =>
      match main_iter langs net reshape getDisplay lang is_rtl ins with
      | .next l r rest out _ =>
          let p := loop_run langs net reshape getDisplay fuel l r rest
          (out ++ p.1, p.2)
      | .terminate out _ => (out, .finished)
      | .interrupted out _ => (out ++ [interruptMsg], .exitZero)
      | .starved out _ => (out, .starved)
      | .uncaught e out _ => (out, .uncaught e)

/-- The banner printed at the start of `main` (lines 139-140). -/
def bannerLines : List String :=
  ["🚀 Google Autocomplete Suggestion Tool", repChar '=' 40]

/-- The confirmation and tips printed after the initial language
selection (lines 145-149). -/
def tipsLines (lang : String) : List String :=
  ["\n✅ Language set to: " ++ lang,
   "\n💡 Tips:",
   "  - Type 'quit', 'exit', or 'q' to exit",
   "  - Type 'lang' to change language",
   "  - Press Ctrl+C to exit anytime"]

/-- `main` (autosuggest.py lines 135-185).  The initial
`get_language_choice()` call (line 143) happens OUTSIDE the
`try`/`except KeyboardInterrupt` block, so an interrupt delivered there
propagates uncaught out of `main`. -/
def run_main (langs : List (String × LangEntry)) (net : String → String → NetOutcome)
    (reshape getDisplay : String → String) (ins : List InEvent) :
    List String × MainResult :=
  match get_language_choice langs ins with
  | .interrupted out => (bannerLines ++ out, .uncaught .keyboardInterrupt)
  | .starved out => (bannerLines ++ out, .starved)
  | .ok code rtl rest out =>
      let p := loop_run langs net reshape getDisplay rest.length code rtl rest
      (bannerLines ++ out ++ tipsLines code ++ p.1, p.2)

/-! ## Claim theorems -/

/-- C9: for every string `s`, `process_rtl_text s false = s` — with the
right-to-left flag false the direction processor is the identity
function, whatever the underlying bidi transforms do. -/
theorem C9_process_rtl_false_identity (reshape getDisplay : String → String)
    (s : String) :
    process_rtl_text reshape getDisplay s false = s := rfl

/-- C2: for every keyword and every successful response whose body is the
2-element JSON array `[k, [s1, s2, ...]]`, `get_google_autocomplete`
returns exactly the suggestion list `[s1, s2, ...]` unmodified and prints
nothing; the echoed first element `k` is ignored. -/
theorem C2_fetch_returns_suggestion_list (k : JsonVal) (s : List String) :
    get_google_autocomplete (.response (some (.arr [k, .arr (s.map JsonVal.str)])))
      = .ret (.arr (s.map JsonVal.str)) [] := rfl

/-- C10: for every successful response whose body parses as a JSON array
with at least two elements, `get_google_autocomplete` returns the element
at index 1 exactly as parsed, with no validation of its shape — whether
or not it is a list of strings. -/
theorem C10_fetch_no_shape_validation (xs : List JsonVal) (h : 1 < xs.length) :
    get_google_autocomplete (.response (some (.arr xs)))
      = .ret (xs.get ⟨1, h⟩) [] := by
  rcases xs with _ | ⟨a, _ | ⟨b, r⟩⟩
  · simp at h
  · simp at h
  · rfl

/-- Witness for C10: the element at index 1 of `["q", 7, null]` is the
number 7 — not a list of strings — and it is returned as-is. -/
theorem C10_fetch_no_shape_validation_witness :
    get_google_autocomplete (.response (some (.arr [.str "q", .num 7, .null])))
      = .ret (.num 7) [] :=
  C10_fetch_no_shape_validation [.str "q", .num 7, .null] (by decide)

/-- C1 counterexample: the response body `{}` is valid JSON, so
`json.loads` succeeds, but subscripting the resulting dict with `1`
raises `KeyError`, which the `except (IndexError, json.JSONDecodeError)`
clause does not catch: the exception propagates out of
`get_google_autocomplete` instead of yielding an empty list and an error
message. -/
theorem C1_counterexample_object_body :
    get_google_autocomplete (.response (some (.obj []))) = .raise .keyError := rfl

/-- C1 (amended): for a timeout, any other transport failure, a response
body that is not parseable as JSON, or a body parsing to a JSON array
with fewer than two elements, `get_google_autocomplete` returns an empty
list and prints exactly one corresponding error message; and for every
body parsing to a JSON array it returns rather than raising.  (Bodies
parsing to non-array JSON values are outside the guarantee: see the
counterexample.) -/
theorem C1_fetch_error_handling (m : String) (xs ys : List JsonVal)
    (h : xs.length < 2) :
    get_google_autocomplete .timeout = .ret (.arr []) [timeoutMsg]
    ∧ get_google_autocomplete (.requestError m)
        = .ret (.arr []) ["❌ Error fetching suggestions: " ++ m]
    ∧ get_google_autocomplete (.response none) = .ret (.arr []) [formatMsg]
    ∧ get_google_autocomplete (.response (some (.arr xs))) = .ret (.arr []) [formatMsg]
    ∧ (get_google_autocomplete (.response (some (.arr ys)))).isRet = true := by
  refine ⟨rfl, rfl, rfl, ?_, ?_⟩
  · rcases xs with _ | ⟨a, _ | ⟨b, r⟩⟩
    · rfl
    · rfl
    · simp only [List.length_cons] at h; omega
  · rcases ys with _ | ⟨a, _ | ⟨b, r⟩⟩ <;> rfl

/-- Witness for C1 at concrete inputs: a timeout, a transport error with
message `"boom"`, an unparseable body, the 1-element array body
`[null]`, and the 2-element array body `[null, 3]`. -/
theorem C1_fetch_error_handling_witness :
    get_google_autocomplete .timeout = .ret (.arr []) [timeoutMsg]
    ∧ get_google_autocomplete (.requestError "boom")
        = .ret (.arr []) ["❌ Error fetching suggestions: " ++ "boom"]
    ∧ get_google_autocomplete (.response none) = .ret (.arr []) [formatMsg]
    ∧ get_google_autocomplete (.response (some (.arr [.null]))) = .ret (.arr []) [formatMsg]
    ∧ (get_google_autocomplete (.response (some (.arr [.null, .num 3])))).isRet = true :=
  C1_fetch_error_handling "boom" [.null] [.null, .num 3] (by decide)

/-- C4: `load_language_config` on a missing file writes the default
two-entry table — English non-RTL under key `"1"`, Hebrew RTL under key
`"2"` — and returns it; on an existing parseable file it returns the
parsed contents unmodified and writes nothing; on an existing file that
is not valid JSON it raises the JSON parse error, which propagates
uncaught to the caller. -/
theorem C4_load_language_config_spec (j : JsonVal) :
    load_language_config .absent = .ret default_config (some default_config)
    ∧ default_config.look "languages"
        = some (.obj [("1", (LangEntry.mk "en" "English" false).toJson),
                      ("2", (LangEntry.mk "he" "Hebrew" true).toJson)])
    ∧ load_language_config (.present (some j)) = .ret j none
    ∧ load_language_config (.present none) = .raise .jsonDecodeError :=
  ⟨rfl, rfl, rfl, rfl⟩

/-- The enumeration loop of `display_suggestions` prints, for a list
entered at rank `i`, exactly the rank-prefixed processed suggestions. -/
theorem enumSuggestionLines_eq_enumFrom (reshape getDisplay : String → String)
    (is_rtl : Bool) : ∀ (i : Nat) (l : List String),
    enumSuggestionLines reshape getDisplay is_rtl i l
      = (List.enumFrom i l).map
          (fun p => pad2d p.1 ++ ". " ++ process_rtl_text reshape getDisplay p.2 is_rtl)
  | _, [] => rfl
  | i, _ :: rest =>
      congrArg (List.cons _)
        (enumSuggestionLines_eq_enumFrom reshape getDisplay is_rtl (i + 1) rest)

/-- C5: `display_suggestions` prints a header naming the
direction-processed keyword, then each suggestion 1-indexed with its
rank (each passed through the direction processor), then a trailing
count; when the suggestion list is empty it prints a "no suggestions
found" line instead of the enumeration. -/
theorem C5_display_suggestions_format (reshape getDisplay : String → String)
    (keyword : String) (suggestions : List String) (is_rtl : Bool) :
    display_suggestions reshape getDisplay keyword suggestions is_rtl
      = ["\n🔍 Autocomplete suggestions for '"
            ++ process_rtl_text reshape getDisplay keyword is_rtl ++ "':",
         repChar '=' ((process_rtl_text reshape getDisplay keyword is_rtl).length + 35)]
        ++ (if suggestions = [] then ["No suggestions found."]
            else
              (List.enumFrom 1 suggestions).map
                  (fun p => pad2d p.1 ++ ". "
                    ++ process_rtl_text reshape getDisplay p.2 is_rtl)
                ++ ["\nFound " ++ toString suggestions.length ++ " suggestion(s)"]) := by
  by_cases h : suggestions = []
  · subst h; rfl
  · simp only [display_suggestions, if_neg h, enumSuggestionLines_eq_enumFrom,
      List.append_assoc, List.cons_append, List.nil_append]

theorem SelResult.addOut_nil (r : SelResult) : r.addOut [] = r := by
  cases r <;> rfl

theorem SelResult.addMsg_addOut (m : String) (pre : List String) (r : SelResult) :
    (r.addOut pre).addMsg m = r.addOut (m :: pre) := by
  cases r <;> rfl

theorem SelResult.addOut_addOut (a b : List String) (r : SelResult) :
    (r.addOut b).addOut a = r.addOut (a ++ b) := by
  cases r <;> simp [SelResult.addOut]

/-- A run of inputs that are neither blank nor table keys only prepends
one invalid-choice message each to the selection prompt loop's output,
leaving its outcome otherwise unchanged. -/
theorem sel_loop_invalid_run (langs : List (String × LangEntry)) :
    ∀ (bad : List String) (ins : List InEvent),
    (∀ b ∈ bad, pyStrip b ≠ "" ∧ List.lookup (pyStrip b) langs = none) →
    sel_loop langs (bad.map InEvent.line ++ ins)
      = (sel_loop langs ins).addOut (List.replicate bad.length invalidChoiceMsg)
  | [], ins, _ => (SelResult.addOut_nil _).symm
  | b :: bad, ins, hb => by
      obtain ⟨hb1, hb2⟩ := hb b (List.mem_cons_self b bad)
      have ih := sel_loop_invalid_run langs bad ins
        (fun x hx => hb x (List.mem_cons_of_mem b hx))
      simp only [List.map_cons, List.cons_append, List.append_eq, sel_loop, if_neg hb1,
        hb2, ih, SelResult.addMsg_addOut, List.length_cons, List.replicate_succ]

/-- C7: in language selection, blank input (after strip) selects
English/non-RTL (`("en", false)`); each input matching no table key
prints one invalid-choice message and re-prompts with no state change;
input matching a table key returns that entry's language code and RTL
flag.  Stated for a stream of `bad` non-matching inputs followed by the
deciding input `s`. -/
theorem C7_language_selection (langs : List (String × LangEntry))
    (bad : List String) (s : String) (rest : List InEvent)
    (hbad : ∀ b ∈ bad, pyStrip b ≠ "" ∧ List.lookup (pyStrip b) langs = none) :
    get_language_choice langs (bad.map InEvent.line ++ (InEvent.line s :: rest))
      = SelResult.addOut (menuLines langs ++ List.replicate bad.length invalidChoiceMsg)
          (if pyStrip s = "" then .ok "en" false rest []
           else
             match List.lookup (pyStrip s) langs with
             | some e => .ok e.code e.rtl rest []
             | none => (sel_loop langs rest).addMsg invalidChoiceMsg) := by
  unfold get_language_choice
  rw [sel_loop_invalid_run langs bad _ hbad, SelResult.addOut_addOut]
  by_cases hs : pyStrip s = ""
  · simp only [sel_loop, if_pos hs]
  · cases hlook : List.lookup (pyStrip s) langs with
    | none => simp only [sel_loop, if_neg hs, hlook]
    | some e => simp only [sel_loop, if_neg hs, hlook]

/-- Witness for C7: against the default table, the invalid input `"x"`
re-prompts with one error message, and `"2"` then selects Hebrew/RTL. -/
theorem C7_language_selection_witness :
    get_language_choice defaultLangs
        (["x"].map InEvent.line ++ (InEvent.line "2" :: []))
      = SelResult.addOut (menuLines defaultLangs ++ List.replicate 1 invalidChoiceMsg)
          (if pyStrip "2" = "" then .ok "en" false [] []
           else
             match List.lookup (pyStrip "2") defaultLangs with
             | some e => .ok e.code e.rtl [] []
             | none => (sel_loop defaultLangs []).addMsg invalidChoiceMsg) :=
  C7_language_selection defaultLangs ["x"] "2" [] (by decide)

/-- C6: in the main loop, keyword input matching `quit`/`exit`/`q`
case-insensitively (after strip) terminates with the farewell message;
`lang` re-runs language selection and returns to the loop with the
updated language binding; empty or whitespace-only input prints a
validation message and stays in the loop with no fetch performed; any
other non-empty input triggers a fetch with the bound language followed
by display.  The first conjunct pins down exactly when a fetch happens;
the second the printed lines and the continuation of the loop. -/
theorem C6_main_loop_dispatch (langs : List (String × LangEntry))
    (net : String → String → NetOutcome) (reshape getDisplay : String → String)
    (fuel : Nat) (lang : String) (is_rtl : Bool) (raw : String)
    (rest : List InEvent) (v : JsonVal) (msgs sl : List String)
    (hnet : get_google_autocomplete (net (pyStrip raw) lang) = .ret v msgs)
    (hv : jsonStrList v = some sl) :
    ((main_iter langs net reshape getDisplay lang is_rtl
          (InEvent.line raw :: rest)).fetchedOf
        = if pyLower (pyStrip raw) = "quit" ∨ pyLower (pyStrip raw) = "exit"
              ∨ pyLower (pyStrip raw) = "q" then none
          else if pyLower (pyStrip raw) = "lang" then none
          else if pyStrip raw = "" then none
          else some (pyStrip raw, lang))
    ∧ loop_run langs net reshape getDisplay (fuel + 1) lang is_rtl
          (InEvent.line raw :: rest)
        = (if pyLower (pyStrip raw) = "quit" ∨ pyLower (pyStrip raw) = "exit"
              ∨ pyLower (pyStrip raw) = "q" then
             ([sepLine, goodbyeMsg], .finished)
           else if pyLower (pyStrip raw) = "lang" then
             match get_language_choice langs rest with
             | .ok code rtl rest2 out =>
                 ([sepLine] ++ out ++ ["✅ Language changed to: " ++ code]
                    ++ (loop_run langs net reshape getDisplay fuel code rtl rest2).1,
                  (loop_run langs net reshape getDisplay fuel code rtl rest2).2)
             | .interrupted out => ([sepLine] ++ out ++ [interruptMsg], .exitZero)
             | .starved out => ([sepLine] ++ out, .starved)
           else if pyStrip raw = "" then
             ([sepLine, invalidKeywordMsg]
                ++ (loop_run langs net reshape getDisplay fuel lang is_rtl rest).1,
              (loop_run langs net reshape getDisplay fuel lang is_rtl rest).2)
           else
             let fetchingLine := "\n⏳ Fetching suggestions for '"
               ++ process_rtl_text reshape getDisplay (pyStrip raw) is_rtl ++ "'..."
             let dl := display_suggestions reshape getDisplay (pyStrip raw) sl is_rtl
             match after_query rest with
             | .stop out2 => ([sepLine, fetchingLine] ++ msgs ++ dl ++ out2, .finished)
             | .again rest2 =>
                 ([sepLine, fetchingLine] ++ msgs ++ dl
                    ++ (loop_run langs net reshape getDisplay fuel lang is_rtl rest2).1,
                  (loop_run langs net reshape getDisplay fuel lang is_rtl rest2).2)
             | .interrupted =>
                 ([sepLine, fetchingLine] ++ msgs ++ dl ++ [interruptMsg], .exitZero)
             | .starved => ([sepLine, fetchingLine] ++ msgs ++ dl, .starved)) := by
  by_cases h1 : pyLower (pyStrip raw) = "quit" ∨ pyLower (pyStrip raw) = "exit"
      ∨ pyLower (pyStrip raw) = "q"
  · simp only [main_iter, loop_run, if_pos h1, IterResult.fetchedOf, and_self]
  · by_cases h2 : pyLower (pyStrip raw) = "lang"
    · cases hsel : get_language_choice langs rest with
      | ok code rtl rest2 out =>
          simp only [main_iter, loop_run, if_neg h1, if_pos h2, hsel,
            IterResult.fetchedOf, List.append_assoc, List.cons_append,
            List.nil_append, and_self]
      | interrupted out =>
          simp only [main_iter, loop_run, if_neg h1, if_pos h2, hsel,
            IterResult.fetchedOf, List.append_assoc, List.cons_append,
            List.nil_append, and_self]
      | starved out =>
          simp only [main_iter, loop_run, if_neg h1, if_pos h2, hsel,
            IterResult.fetchedOf, List.append_assoc, List.cons_append,
            List.nil_append, and_self]
    · by_cases h3 : pyStrip raw = ""
      · simp only [main_iter, loop_run, if_neg h1, if_neg h2, if_pos h3,
          IterResult.fetchedOf, List.append_assoc, List.cons_append,
          List.nil_append, and_self]
      · cases haq : after_query rest with
        | stop out2 =>
            simp only [main_iter, loop_run, if_neg h1, if_neg h2, if_neg h3, hnet,
              display_of_value, hv, haq, IterResult.fetchedOf, List.append_assoc,
              List.cons_append, List.nil_append, and_self]
        | again rest2 =>
            simp only [main_iter, loop_run, if_neg h1, if_neg h2, if_neg h3, hnet,
              display_of_value, hv, haq, IterResult.fetchedOf, List.append_assoc,
              List.cons_append, List.nil_append, and_self]
        | interrupted =>
            simp only [main_iter, loop_run, if_neg h1, if_neg h2, if_neg h3, hnet,
              display_of_value, hv, haq, IterResult.fetchedOf, List.append_assoc,
              List.cons_append, List.nil_append, and_self]
        | starved =>
            simp only [main_iter, loop_run, if_neg h1, if_neg h2, if_neg h3, hnet,
              display_of_value, hv, haq, IterResult.fetchedOf, List.append_assoc,
              List.cons_append, List.nil_append, and_self]

/-- Witness for C6 at a concrete session: keyword `"cat"` with a stub
response `["cat", ["cat videos"]]`, followed by the answer `"n"`. -/
theorem C6_main_loop_dispatch_witness :
    ((main_iter defaultLangs
          (fun _ _ => .response (some (.arr [.str "cat", .arr [.str "cat videos"]])))
          id id "en" false (InEvent.line "cat" :: [InEvent.line "n"])).fetchedOf
        = if pyLower (pyStrip "cat") = "quit" ∨ pyLower (pyStrip "cat") = "exit"
              ∨ pyLower (pyStrip "cat") = "q" then none
          else if pyLower (pyStrip "cat") = "lang" then none
          else if pyStrip "cat" = "" then none
          else some (pyStrip "cat", "en"))
    ∧ loop_run defaultLangs
          (fun _ _ => .response (some (.arr [.str "cat", .arr [.str "cat videos"]])))
          id id (0 + 1) "en" false (InEvent.line "cat" :: [InEvent.line "n"])
        = (if pyLower (pyStrip "cat") = "quit" ∨ pyLower (pyStrip "cat") = "exit"
              ∨ pyLower (pyStrip "cat") = "q" then
             ([sepLine, goodbyeMsg], .finished)
           else if pyLower (pyStrip "cat") = "lang" then
             match get_language_choice defaultLangs [InEvent.line "n"] with
             | .ok code rtl rest2 out =>
                 ([sepLine] ++ out ++ ["✅ Language changed to: " ++ code]
                    ++ (loop_run defaultLangs
                          (fun _ _ => .response
                            (some (.arr [.str "cat", .arr [.str "cat videos"]])))
                          id id 0 code rtl rest2).1,
                  (loop_run defaultLangs
                      (fun _ _ => .response
                        (some (.arr [.str "cat", .arr [.str "cat videos"]])))
                      id id 0 code rtl rest2).2)
             | .interrupted out => ([sepLine] ++ out ++ [interruptMsg], .exitZero)
             | .starved out => ([sepLine] ++ out, .starved)
           else if pyStrip "cat" = "" then
             ([sepLine, invalidKeywordMsg]
                ++ (loop_run defaultLangs
                      (fun _ _ => .response
                        (some (.arr [.str "cat", .arr [.str "cat videos"]])))
                      id id 0 "en" false [InEvent.line "n"]).1,
              (loop_run defaultLangs
                  (fun _ _ => .response
                    (some (.arr [.str "cat", .arr [.str "cat videos"]])))
                  id id 0 "en" false [InEvent.line "n"]).2)
           else
             let fetchingLine := "\n⏳ Fetching suggestions for '"
               ++ process_rtl_text id id (pyStrip "cat") false ++ "'..."
             let dl := display_suggestions id id (pyStrip "cat") ["cat videos"] false
             match after_query [InEvent.line "n"] with
             | .stop out2 => ([sepLine, fetchingLine] ++ [] ++ dl ++ out2, .finished)
             | .again rest2 =>
                 ([sepLine, fetchingLine] ++ [] ++ dl
                    ++ (loop_run defaultLangs
                          (fun _ _ => .response
                            (some (.arr [.str "cat", .arr [.str "cat videos"]])))
                          id id 0 "en" false rest2).1,
                  (loop_run defaultLangs
                      (fun _ _ => .response
                        (some (.arr [.str "cat", .arr [.str "cat videos"]])))
                      id id 0 "en" false rest2).2)
             | .interrupted =>
                 ([sepLine, fetchingLine] ++ [] ++ dl ++ [interruptMsg], .exitZero)
             | .starved => ([sepLine, fetchingLine] ++ [] ++ dl, .starved)) :=
  C6_main_loop_dispatch defaultLangs
    (fun _ _ => .response (some (.arr [.str "cat", .arr [.str "cat videos"]])))
    id id 0 "en" false "cat" [InEvent.line "n"]
    (.arr [.str "cat videos"]) [] ["cat videos"] rfl rfl

/-- C8: at the continue prompt after a query, an answer of `"n"` or
`"no"` (case-insensitive, after strip) terminates the program with the
thank-you message; any other answer returns to the main loop with the
remaining input. -/
theorem C8_continue_prompt (langs : List (String × LangEntry))
    (net : String → String → NetOutcome) (reshape getDisplay : String → String)
    (lang : String) (is_rtl : Bool) (k c : String) (rest : List InEvent)
    (v : JsonVal) (msgs sl : List String)
    (hk1 : ¬(pyLower (pyStrip k) = "quit" ∨ pyLower (pyStrip k) = "exit"
      ∨ pyLower (pyStrip k) = "q"))
    (hk2 : ¬pyLower (pyStrip k) = "lang") (hk3 : ¬pyStrip k = "")
    (hnet : get_google_autocomplete (net (pyStrip k) lang) = .ret v msgs)
    (hv : jsonStrList v = some sl) :
    main_iter langs net reshape getDisplay lang is_rtl
        (InEvent.line k :: InEvent.line c :: rest)
      = (let fetchingLine := "\n⏳ Fetching suggestions for '"
           ++ process_rtl_text reshape getDisplay (pyStrip k) is_rtl ++ "'..."
         let dl := display_suggestions reshape getDisplay (pyStrip k) sl is_rtl
         if pyLower (pyStrip c) = "n" ∨ pyLower (pyStrip c) = "no" then
           IterResult.terminate ([sepLine, fetchingLine] ++ msgs ++ dl ++ [thanksMsg])
             (some (pyStrip k, lang))
         else
           IterResult.next lang is_rtl rest ([sepLine, fetchingLine] ++ msgs ++ dl)
             (some (pyStrip k, lang))) := by
  by_cases hc : pyLower (pyStrip c) = "n" ∨ pyLower (pyStrip c) = "no"
  · simp only [main_iter, if_neg hk1, if_neg hk2, if_neg hk3, hnet,
      display_of_value, hv, after_query, if_pos hc]
  · simp only [main_iter, if_neg hk1, if_neg hk2, if_neg hk3, hnet,
      display_of_value, hv, after_query, if_neg hc]

/-- Witness for C8: keyword `"cat"` with a stub response, then the
answer `"N"`, which terminates with the thank-you message. -/
theorem C8_continue_prompt_witness :
    main_iter defaultLangs
        (fun _ _ => .response (some (.arr [.str "cat", .arr [.str "cat videos"]])))
        id id "en" false (InEvent.line "cat" :: InEvent.line "N" :: [])
      = (let fetchingLine := "\n⏳ Fetching suggestions for '"
           ++ process_rtl_text id id (pyStrip "cat") false ++ "'..."
         let dl := display_suggestions id id (pyStrip "cat") ["cat videos"] false
         if pyLower (pyStrip "N") = "n" ∨ pyLower (pyStrip "N") = "no" then
           IterResult.terminate ([sepLine, fetchingLine] ++ [] ++ dl ++ [thanksMsg])
             (some (pyStrip "cat", "en"))
         else
           IterResult.next "en" false [] ([sepLine, fetchingLine] ++ [] ++ dl)
             (some (pyStrip "cat", "en"))) :=
  C8_continue_prompt defaultLangs
    (fun _ _ => .response (some (.arr [.str "cat", .arr [.str "cat videos"]])))
    id id "en" false "cat" "N" [] (.arr [.str "cat videos"]) [] ["cat videos"]
    (by decide) (by decide) (by decide) rfl rfl

/-- C3 counterexample: an interrupt delivered during the initial
language selection — the first `input()` of the run, at line 143, which
is OUTSIDE the `try`/`except KeyboardInterrupt` block of lines 151-185 —
propagates uncaught out of `main`: the process does not print the
goodbye message and does not exit with status 0 via `sys.exit(0)`. -/
theorem C3_counterexample_interrupt_at_startup :
    run_main defaultLangs (fun _ _ => .timeout) id id [InEvent.interrupt]
      = (bannerLines ++ menuLines defaultLangs, .uncaught .keyboardInterrupt) := rfl

/-- C3 (amended): an interrupt delivered at any `input()` call inside the
main loop's `try` block — the keyword prompt, a `lang` re-selection, or
the continue prompt — is caught: the program prints the distinct goodbye
message after whatever the pass had printed and exits via `sys.exit(0)`.
An interrupt during the initial language selection instead propagates as
an uncaught `KeyboardInterrupt`. -/
theorem C3_interrupt_exits_clean (langs : List (String × LangEntry))
    (net : String → String → NetOutcome) (reshape getDisplay : String → String)
    (fuel : Nat) (lang : String) (is_rtl : Bool) (ins ins2 : List InEvent)
    (out : List String) (f : Option (String × String))
    (h : main_iter langs net reshape getDisplay lang is_rtl ins
      = .interrupted out f) :
    loop_run langs net reshape getDisplay (fuel + 1) lang is_rtl ins
        = (out ++ [interruptMsg], .exitZero)
    ∧ main_iter langs net reshape getDisplay lang is_rtl (InEvent.interrupt :: ins2)
        = .interrupted [sepLine] none
    ∧ (run_main langs net reshape getDisplay [InEvent.interrupt]).2
        = .uncaught .keyboardInterrupt := by
  refine ⟨?_, rfl, rfl⟩
  simp only [loop_run, h]

/-- Witness for C3 at a concrete session: the interrupt arrives at the
very first keyword prompt of the loop. -/
theorem C3_interrupt_exits_clean_witness :
    loop_run defaultLangs (fun _ _ => .timeout) id id (0 + 1) "en" false
        [InEvent.interrupt]
      = ([sepLine] ++ [interruptMsg], .exitZero)
    ∧ main_iter defaultLangs (fun _ _ => .timeout) id id "en" false
        (InEvent.interrupt :: [])
      = .interrupted [sepLine] none
    ∧ (run_main defaultLangs (fun _ _ => .timeout) id id [InEvent.interrupt]).2
      = .uncaught .keyboardInterrupt :=
  C3_interrupt_exits_clean defaultLangs (fun _ _ => .timeout) id id 0 "en" false
    [InEvent.interrupt] [] [sepLine] none rfl

end Autosuggest
